import Mathlib

/-!
# Videoflix front-end — shallow embedding and verification

This file embeds the session-management and video-catalog logic of the
Videoflix Angular front-end and proves the specification's claims about it.

Embedded sources:
* `src/app/shared/services/auth.service.ts` (cookie-session variant of
  `AuthService`: `login`, `validateSession`, `logout`,
  `handleSuccessResponse`, `handleErrorResponse`, `isAuthenticated`,
  `getCurrentUser`).
* `src/app/shared/services/video.service.ts` (`VideoService`:
  `loadAndSetupVideos`, `calculateLatestVideos`, `getCategories`,
  `handleError`).
* `src/app/shared/guards/auth.guard.ts` (both the cookie-variant
  `authInterceptor` and the token-variant `authInterceptor` with its
  `handle401Error` refresh-coalescing logic).

Modelling conventions:
* JavaScript runtime values that the code inspects dynamically (error
  bodies, `typeof` probes, truthiness tests) are modelled by the `JSVal`
  inductive below.  Object key iteration order is modelled by the order of
  the field list (the embedded error bodies use non-index string keys, for
  which JavaScript guarantees insertion order).
* RxJS observables produced by the service methods emit exactly one
  notification here: either a `next` value followed by completion, or an
  `error` notification.  They are modelled by small sum types
  (`LoginOutcome`, `ValidateOutcome`, ...).
* `BehaviorSubject` state is modelled by explicit state records
  (`AuthState`, `VideoState`); each method becomes a function from the
  pre-call state (plus the HTTP result the transport delivers) to the
  post-call state and the outcome delivered to the subscriber.
* Timestamps are integers in milliseconds.  A video's `created_at` field
  is modelled as the parsed time value of the source's date string
  (`none` when the field is absent, empty or unparsable: all of these are
  excluded by the source's `!video.created_at` guard or by the
  `Invalid Date` comparison, which is always false).
-/

namespace Videoflix

/-- A JavaScript runtime value, as far as the embedded code inspects one:
the code probes values with `typeof`, `Array.isArray`, truthiness tests and
property access. -/
inductive JSVal where
  | vnull
  | vundefined
  | vbool (b : Bool)
  | vnum (n : Int)
  | vstr (s : String)
  | varr (elems : List JSVal)
  | vobj (fields : List (String × JSVal))
deriving Repr

/-- JavaScript truthiness (`if (x)`).  `NaN` is not modelled; no embedded
value is a `NaN`. -/
def JSVal.truthy : JSVal → Bool
  | .vnull => false
  | .vundefined => false
  | .vbool b => b
  | .vnum n => n != 0
  | .vstr s => s ≠ ""
  | .varr _ => true
  | .vobj _ => true

/-- The JavaScript `typeof` operator (note `typeof null == "object"` and
`typeof [] == "object"`). -/
def JSVal.typeofStr : JSVal → String
  | .vnull => "object"
  | .vundefined => "undefined"
  | .vbool _ => "boolean"
  | .vnum _ => "number"
  | .vstr _ => "string"
  | .varr _ => "object"
  | .vobj _ => "object"

/-- `Array.isArray`. -/
def JSVal.isArray : JSVal → Bool
  | .varr _ => true
  | _ => false

/-- JavaScript string coercion as performed by `Array.prototype.join`:
`null` and `undefined` coerce to the empty string, arrays join their
coerced elements with commas, plain objects coerce to
`"[object Object]"`. -/
def JSVal.coerceStr : JSVal → String
  | .vnull => ""
  | .vundefined => ""
  | .vbool b => cond b "true" "false"
  | .vnum n => toString n
  | .vstr s => s
  | .varr elems => String.intercalate "," (elems.attach.map (fun e => e.1.coerceStr))
  | .vobj _ => "[object Object]"
termination_by v => sizeOf v
decreasing_by
  have := List.sizeOf_lt_of_mem e.2
  simp only [JSVal.varr.sizeOf_spec]
  omega

/-- Property access `v?.key` (optional chaining): property lookup on a
plain object, `undefined` on everything else. -/
def JSVal.getProp (v : JSVal) (key : String) : JSVal :=
  match v with
  | .vobj fields => ((fields.find? (fun kv => kv.1 = key)).map (·.2)).getD .vundefined
  | _ => .vundefined

/-! ## AuthService data model (`src/app/shared/services/auth.service.ts`) -/

/-- The `User` interface of `auth.service.ts`. -/
structure User where
  id : Nat
  email : String
  first_name : Option String := none
  last_name : Option String := none
deriving Repr, DecidableEq

/-- The `ApiResponse<T>` envelope of `auth.service.ts`.  `errors` holds the
raw values the error handler pushed (the source types it `string[]`, but
`errorMessages.push(...fieldErrors)` can push arbitrary runtime values, so
the model keeps them as `JSVal`). -/
structure ApiResponse (α : Type) where
  success : Bool
  data : Option α := none
  message : Option String := none
  errors : Option (List JSVal) := none
deriving Repr

/-- The service's observable state: the values held by
`currentUserSubject` and `isAuthenticatedSubject`, plus the two
`localStorage` keys touched by `logout()`. -/
structure AuthState where
  currentUser : Option User
  isAuthenticated : Bool
  accessTokenLS : Option String := none
  refreshTokenLS : Option String := none
deriving Repr, DecidableEq

/-- State at service construction: both subjects start at
`null` / `false`. -/
def initialAuthState : AuthState :=
  { currentUser := none, isAuthenticated := false }

/-- Synchronous read `isAuthenticated()`. -/
def AuthState.isAuthenticatedFn (s : AuthState) : Bool :=
  s.isAuthenticated

/-- Synchronous read `getCurrentUser()`. -/
def AuthState.getCurrentUser (s : AuthState) : Option User :=
  s.currentUser

/-- An Angular `HttpErrorResponse` as far as the embedded handlers inspect
it: its `status`, the parsed error body `error`, and the always-present
`message` string. -/
structure HttpError where
  status : Int := 0
  error : JSVal := .vundefined
  message : String := ""
deriving Repr

/-- Result delivered by `HttpClient` to the operator pipeline: a 2xx
response body flows into `map`, everything else (non-2xx status, network
failure) flows into `catchError` as an `HttpError`. -/
inductive HttpResult (β : Type) where
  | ok (body : β)
  | fail (e : HttpError)
deriving Repr

/-! ## AuthService error/success handlers -/

/-- One iteration of the `Object.keys(error.error).forEach` body in
`handleErrorResponse`: an array field value is spread into the list, a
string field value is pushed, anything else is skipped. -/
def pushFieldErrors (acc : List JSVal) (fieldErrors : JSVal) : List JSVal :=
  match fieldErrors with
  | .varr elems => acc ++ elems
  | .vstr s => acc ++ [.vstr s]
  | _ => acc

/-- The `typeof error.error === 'object'` branch of `handleErrorResponse`:
iterate the body's own keys in iteration order, collecting field errors.
(A JavaScript array also has `typeof` `"object"`; its keys are its indices,
so its elements are treated as field values.) -/
def collectErrorMessages (body : JSVal) : List JSVal :=
  match body with
  | .vobj fields => fields.foldl (fun acc kv => pushFieldErrors acc kv.2) []
  | .varr elems => elems.foldl pushFieldErrors []
  | _ => []

/-- `AuthService.handleErrorResponse` (auth.service.ts:364-394): normalize
a raw HTTP error into a failed `ApiResponse`.  The source returns
`throwError(() => apiError)`; this function builds the `apiError`
envelope, and the callers below wrap it in the outcome's error case. -/
def handleErrorResponse (err : HttpError) : ApiResponse α :=
  let errorMessages : List JSVal :=
    if err.error.truthy then
      if err.error.typeofStr = "object" then
        collectErrorMessages err.error
      else if err.error.typeofStr = "string" then
        match err.error with
        | .vstr s => [.vstr s]
        | _ => []
      else []
    else []
  let errorMessage : String :=
    if err.error.truthy then
      if errorMessages.length > 0 then
        String.intercalate ". " (errorMessages.map JSVal.coerceStr)
      else "An error occurred"
    else "An error occurred"
  { success := false, errors := some errorMessages, message := some errorMessage }

/-- The login response body, as far as `login` inspects it: the optional
`user` field and the optional `message` field.  (`response.body?.user` is
truthy exactly when a user object is present.) -/
structure LoginBody where
  user : Option User := none
  message : Option String := none
deriving Repr

/-- `AuthService.handleSuccessResponse` (auth.service.ts:349-355) applied
to a login body: `success: true`, `data` is the whole body, and `message`
is `response.message || 'Operation successful'` (JavaScript `||` falls
through on the absent and on the empty string). -/
def handleSuccessResponse (body : LoginBody) : ApiResponse LoginBody :=
  { success := true
    data := some body
    message := some (match body.message with
      | some m => if m = "" then "Operation successful" else m
      | none => "Operation successful") }

/-! ## AuthService operations -/

/-- Outcome of the observable returned by `login`: either it emits one
normalized envelope and completes, or it errors with the normalized
envelope produced by `handleErrorResponse` (the raw transport error is
never surfaced). -/
inductive LoginOutcome where
  | next (r : ApiResponse LoginBody)
  | err (r : ApiResponse LoginBody)
deriving Repr

/-- `AuthService.login` (auth.service.ts:145-171).  On a 2xx response the
`map` operator wraps the body via `handleSuccessResponse`, sets
`isAuthenticatedSubject` to `true`, and — only when `response.body?.user`
is present — replaces `currentUserSubject`.  On any error, `catchError`
normalizes via `handleErrorResponse`; no state is touched. -/
def login (s : AuthState) (resp : HttpResult LoginBody) :
    AuthState × LoginOutcome :=
  match resp with
  | .ok body =>
    let result := handleSuccessResponse body
    let s' :=
      if result.success then
        let s1 := { s with isAuthenticated := true }
        match body.user with
        | some u => { s1 with currentUser := some u }
        | none => s1
      else s
    (s', .next result)
  | .fail e => (s, .err (handleErrorResponse e))

/-- Outcome of the observable returned by `validateSession`: it emits a
boolean and completes in both branches (`catchError` returns
`of(false)`); the error case is included to state that it never
occurs. -/
inductive ValidateOutcome where
  | next (b : Bool)
  | err (e : HttpError)
deriving Repr

/-- `AuthService.validateSession` (auth.service.ts:225-239): a GET on the
video-list endpoint; any 2xx sets `isAuthenticatedSubject` to `true` and
emits `true`; any error sets it to `false`, clears `currentUserSubject`,
and emits `false` instead of propagating the error. -/
def validateSession (s : AuthState) (resp : HttpResult JSVal) :
    AuthState × ValidateOutcome :=
  match resp with
  | .ok _ => ({ s with isAuthenticated := true }, .next true)
  | .fail _ =>
    ({ s with isAuthenticated := false, currentUser := none }, .next false)

/-- `AuthService.logout` (auth.service.ts:246-252): removes the
`access_token` and `refresh_token` localStorage entries and resets both
subjects. -/
def logout (_s : AuthState) : AuthState :=
  { currentUser := none
    isAuthenticated := false
    accessTokenLS := none
    refreshTokenLS := none }

/-! ## VideoService (`src/app/shared/services/video.service.ts`) -/

/-- The `Video` record, as far as the embedded logic inspects it.
`category` is the raw optional string (the empty string is possible and is
falsy).  `created_at` is the parsed time value in milliseconds of the
source's date string (`none` when the field is absent, empty or
unparsable — see the module comment). -/
structure Video where
  id : Nat
  title : String
  category : Option String := none
  created_at : Option Int := none
deriving Repr, DecidableEq

/-- The values of `videosSubject`, `latestVideosSubject` and
`currentVideoSubject`. -/
structure VideoState where
  videos : List Video := []
  latestVideos : List Video := []
  currentVideo : Option Video := none
deriving Repr, DecidableEq

/-- `VideoService.calculateLatestVideos` (video.service.ts:61-72), as the
list it pushes to `latestVideosSubject`: keep the videos whose
`created_at` is present and at or after `now - 5 days`
(`5 * 24 * 60 * 60 * 1000` ms); `!video.created_at` rejects the rest. -/
def calculateLatestVideos (now : Int) (videos : List Video) : List Video :=
  let fiveDaysAgo := now - 5 * 24 * 60 * 60 * 1000
  videos.filter (fun video =>
    match video.created_at with
    | none => false
    | some t => fiveDaysAgo ≤ t)

/-- `String.prototype.toLowerCase()`, modelled as per-character
lowercasing (the embedded category names are ASCII; `Char.toLower`
lowercases exactly the ASCII uppercase letters). -/
def jsToLower (s : String) : String :=
  String.mk (s.data.map Char.toLower)

/-- Insertion into a JavaScript `Set` iterated in insertion order
(`Array.from(new Set(l))`): keep the first occurrence of each element. -/
def jsSetOfList (l : List String) : List String :=
  l.foldl (fun acc s => if s ∈ acc then acc else acc ++ [s]) []

/-- `VideoService.getCategories` (video.service.ts:77-86): map the stored
videos to their categories, keep the truthy ones (present and nonempty),
lower-case them, and deduplicate via a `Set`. -/
def getCategories (videos : List Video) : List String :=
  jsSetOfList
    (((videos.map (·.category)).filter (fun c =>
        match c with
        | some s => s ≠ ""
        | none => false)).map (fun c => jsToLower (c.getD "")))

/-- `VideoService.handleError` (video.service.ts:129-155): build the
`success: false` envelope (the observable then emits it and completes). -/
def VideoService.handleError (err : HttpError) : ApiResponse (List Video) :=
  let errorMessage : String :=
    if err.status = 401 then "Nicht autorisiert. Bitte melden Sie sich erneut an."
    else if err.status = 403 then "Zugriff verweigert."
    else if err.status = 404 then "Videos nicht gefunden."
    else if err.status = 500 then "Server-Fehler. Bitte versuchen Sie es später erneut."
    else if (err.error.getProp "message").truthy then
      (err.error.getProp "message").coerceStr
    else if err.message ≠ "" then err.message
    else "Failed to load videos"
  { success := false
    message := some errorMessage
    errors := some [.vstr errorMessage] }

/-- Outcome of the observable returned by `loadAndSetupVideos`: it either
emits one envelope and completes (both the success path and the
`handleError` path do this) or delivers an error notification (never
produced; included to state that). -/
inductive VideoLoadOutcome where
  | next (r : ApiResponse (List Video))
  | err (e : HttpError)
deriving Repr

/-- `VideoService.loadAndSetupVideos` (video.service.ts:30-56).  On a 2xx
body: store the videos, recompute the latest-videos list, set the first
video as current when the list is nonempty, and emit a success envelope.
On any error: `catchError` routes to `handleError`, which emits a failed
envelope on the normal channel; no state subject is touched. -/
def loadAndSetupVideos (now : Int) (st : VideoState)
    (resp : HttpResult (List Video)) : VideoState × VideoLoadOutcome :=
  match resp with
  | .ok videos =>
    let st1 := { st with videos := videos }
    let st2 := { st1 with latestVideos := calculateLatestVideos now videos }
    let st3 :=
      match videos with
      | v0 :: _ => { st2 with currentVideo := some v0 }
      | [] => st2
    (st3, .next { success := true, data := some videos })
  | .fail e => (st, .next (VideoService.handleError e))

/-! ## Cookie-variant interceptor (`src/app/shared/guards/auth.guard.ts`,
`authInterceptor` + `handle401Error`, lines 252-288) -/

/-- An outgoing HTTP request, as far as the interceptors act on one:
its `withCredentials` flag and its `Authorization` bearer header. -/
structure HttpRequest where
  url : String
  withCredentials : Bool := false
  bearer : Option String := none
deriving Repr, DecidableEq

/-- An error delivered by `next(...)`: an `HttpErrorResponse` carrying a
status, or any other thrown value (`instanceof HttpErrorResponse` is
false for those). -/
inductive TransportError where
  | httpError (status : Int) (body : JSVal)
  | jsError (message : String)
deriving Repr

/-- What `next(authRequest)` delivers back to the interceptor: a response
event (opaque here) or an error. -/
inductive NextResult where
  | event (tag : Nat)
  | err (e : TransportError)
deriving Repr

/-- One notification out of the cookie-variant interceptor's observable. -/
inductive InterceptOutcome where
  | event (tag : Nat)
  | errorOut (e : TransportError)
  | sessionExpired
deriving Repr

/-- Everything observable about one run of the cookie-variant
interceptor: the request actually forwarded, the session state after the
run, whether `router.navigate(['/auth/login'])` was called, and the
notification delivered to the caller. -/
structure InterceptResult where
  sent : HttpRequest
  state : AuthState
  navigatedToLogin : Bool
  outcome : InterceptOutcome
deriving Repr

/-- The cookie-variant `authInterceptor` (auth.guard.ts:252-288).  Every
request is cloned with `withCredentials: true`; a 401 `HttpErrorResponse`
is handled by `handle401Error` (logout, redirect to the login route, and a
fresh `Error('Session expired. Please login again.')`); every other error
is rethrown unmodified; response events pass through.  `deliver` is what
`next(authRequest)` yields for this request. -/
def authInterceptorCookie (s : AuthState) (req : HttpRequest)
    (deliver : NextResult) : InterceptResult :=
  let authRequest := { req with withCredentials := true }
  match deliver with
  | .event t =>
    { sent := authRequest, state := s, navigatedToLogin := false
      outcome := .event t }
  | .err (.httpError status body) =>
    if status = 401 then
      { sent := authRequest, state := logout s, navigatedToLogin := true
        outcome := .sessionExpired }
    else
      { sent := authRequest, state := s, navigatedToLogin := false
        outcome := .errorOut (.httpError status body) }
  | .err (.jsError m) =>
    { sent := authRequest, state := s, navigatedToLogin := false
      outcome := .errorOut (.jsError m) }

/-! ## Token-variant interceptor (`src/app/shared/guards/auth.guard.ts`,
module state `isRefreshing` / `refreshTokenSubject` and `handle401Error`,
lines 156-230)

The interceptor's 401 handling is a state machine over the module-level
mutable state, driven by three kinds of events on the single-threaded
event loop: a request observing a 401, and the pending refresh call
completing with success or failure.

Modelled from the spec: the token-variant `AuthService.refreshToken()`
(a `POST token/refresh/` that, on success, stores the new access token
under the fixed `access_token` localStorage key) is not part of the
sources — the repository only carries the cookie-variant stub that fails
with "not supported".  Its observable behaviour here follows §6 of the
spec ("`POST /token/refresh/` — token variant only"; "Persisted
client-side state: a bearer token and refresh token under fixed
local-storage keys in the token variant"): `refreshCalls` counts the
POSTs issued, and a successful refresh stores the returned access token
before the interceptor's `switchMap` observes the response. -/

/-- The combined mutable state the token-variant 401 handling acts on:
the interceptor's module variables (`isRefreshing`,
`refreshTokenSubject`), the localStorage token keys, the session
subjects, and bookkeeping of the observable effects (refresh calls made,
requests waiting on the subject, requests retried and the bearer token
they carried, redirect flag, requests whose observable errored). -/
structure TokenState where
  isRefreshing : Bool := false
  refreshTokenSubject : JSVal := .vnull
  accessTokenLS : Option String := none
  refreshTokenLS : Option String := none
  currentUser : Option User := none
  isAuthenticated : Bool := false
  refreshCalls : Nat := 0
  pendingInitiator : Option Nat := none
  waiting : List Nat := []
  retried : List (Nat × Option String) := []
  navigatedToLogin : Bool := false
  erroredRequests : List Nat := []
deriving Repr

/-- An event on the event loop relevant to the 401 handling. -/
inductive TokenEvent where
  | observe401 (reqId : Nat)
  | refreshSuccess (access : String)
  | refreshFailure
deriving Repr, DecidableEq

/-- One event of the token-variant `handle401Error` logic
(auth.guard.ts:199-230).

* `observe401` with no refresh in flight: set `isRefreshing`, reset the
  subject to `null`, and invoke `authService.refreshToken()` — one call
  to the refresh endpoint, whose completion arrives later as a
  `refreshSuccess`/`refreshFailure` event.
* `observe401` while refreshing: the request subscribes to
  `refreshTokenSubject.pipe(filter(token => token != null), take(1))`
  and waits; no refresh call is made.
* `refreshSuccess`: clear `isRefreshing`, store the new access token
  (spec-modelled, see above), push it on the subject — which
  synchronously releases every waiting request, each retried via
  `addToken` with the stored token — then retry the initiating request
  the same way.
* `refreshFailure`: clear `isRefreshing`, `authService.logout()`,
  redirect to the login route, and rethrow to the initiator.  The
  subject never receives a non-null value, so waiting requests stay
  blocked. -/
def tokenStep (s : TokenState) (ev : TokenEvent) : TokenState :=
  match ev with
  | .observe401 r =>
    if s.isRefreshing then
      { s with waiting := s.waiting ++ [r] }
    else
      { s with isRefreshing := true
               refreshTokenSubject := .vnull
               refreshCalls := s.refreshCalls + 1
               pendingInitiator := some r }
  | .refreshSuccess access =>
    match s.pendingInitiator with
    | none => s
    | some r0 =>
      { s with isRefreshing := false
               accessTokenLS := some access
               refreshTokenSubject := .vstr access
               pendingInitiator := none
               retried := s.retried
                 ++ s.waiting.map (fun q => (q, some access))
                 ++ [(r0, some access)]
               waiting := [] }
  | .refreshFailure =>
    match s.pendingInitiator with
    | none => s
    | some r0 =>
      { s with isRefreshing := false
               accessTokenLS := none
               refreshTokenLS := none
               currentUser := none
               isAuthenticated := false
               navigatedToLogin := true
               pendingInitiator := none
               erroredRequests := s.erroredRequests ++ [r0] }

/-- Run a sequence of events in event-loop order. -/
def runTokenEvents (s : TokenState) (evs : List TokenEvent) : TokenState :=
  evs.foldl tokenStep s

/-! ### C4: error-body flattening

Spec-side description of a validation-error body: each field maps to a
list of message strings or to a single message string.  `fieldErrJS`
injects that shape into the runtime-value model, and
`flattenFieldErrors` is the flattening the claim describes, in key
iteration order. -/

/-- A validation-error field value as the claim describes it. -/
def fieldErrJS : List String ⊕ String → JSVal
  | .inl ss => .varr (ss.map .vstr)
  | .inr s => .vstr s

/-- The claim's structured field-keyed body shape, injected into the
runtime-value model. -/
def objErrVal (fields : List (String × (List String ⊕ String))) : JSVal :=
  .vobj (fields.map (fun kv => (kv.1, fieldErrJS kv.2)))

/-- The claim's flattening of a field-keyed error body, in key iteration
order. -/
def flattenFieldErrors
    (fields : List (String × (List String ⊕ String))) : List String :=
  fields.foldr
    (fun kv acc => (match kv.2 with | .inl ss => ss | .inr s => [s]) ++ acc) []

/-! ## Claim theorems -/

/-- C1: for every login call whose HTTP response is 2xx and whose body
carries a user object, after the call completes `isAuthenticated()`
returns `true` and `getCurrentUser()` returns the user from the response
body (and the caller receives the success envelope). -/
theorem claim_C1_login_success_sets_session (s : AuthState) (u : User)
    (msg : Option String) :
    ((login s (.ok { user := some u, message := msg })).1.isAuthenticatedFn = true)
    ∧ ((login s (.ok { user := some u, message := msg })).1.getCurrentUser = some u)
    ∧ ((login s (.ok { user := some u, message := msg })).2
        = .next (handleSuccessResponse { user := some u, message := msg })) :=
  ⟨rfl, rfl, rfl⟩

/-- C2: a failed (non-2xx) login leaves the session state exactly as it
was, and the caller receives the normalized `success: false` envelope
produced by `handleErrorResponse` instead of the raw transport error. -/
theorem claim_C2_login_failure_preserves_state (s : AuthState) (e : HttpError) :
    (login s (.fail e)).1 = s
    ∧ (login s (.fail e)).2 = .err (handleErrorResponse e)
    ∧ (handleErrorResponse e : ApiResponse LoginBody).success = false :=
  ⟨rfl, rfl, rfl⟩

/-- C3: `validateSession()` sets the authenticated flag on any 2xx
response and emits `true`; on any error (401, network failure, ...) it
sets authenticated to `false`, clears the current user — whatever was
previously set — and emits `false` instead of propagating the error. -/
theorem claim_C3_validateSession_transitions (s : AuthState) (body : JSVal)
    (e : HttpError) :
    validateSession s (.ok body) = ({ s with isAuthenticated := true }, .next true)
    ∧ validateSession s (.fail e)
      = ({ s with isAuthenticated := false, currentUser := none }, .next false) :=
  ⟨rfl, rfl⟩

/-- C9: a 2xx login whose body has no `user` field still sets the
authenticated flag while leaving the current user at its previous value;
in particular `isAuthenticated() = true` with `getCurrentUser() = null`
is reachable from the initial state. -/
theorem claim_C9_login_without_user_field (s : AuthState) (msg : Option String) :
    ((login s (.ok { user := none, message := msg })).1
      = { s with isAuthenticated := true })
    ∧ ((login initialAuthState (.ok { user := none })).1.isAuthenticatedFn = true)
    ∧ ((login initialAuthState (.ok { user := none })).1.getCurrentUser = none) :=
  ⟨rfl, rfl, rfl⟩

/-- C10: when the video-list request fails, `loadAndSetupVideos` leaves
all three video-state values untouched and emits — on the normal channel,
never as an error notification — a `success: false` envelope whose
`errors` list is exactly the singleton of its message. -/
theorem claim_C10_load_videos_error_path (now : Int) (st : VideoState)
    (e : HttpError) :
    (loadAndSetupVideos now st (.fail e)).1 = st
    ∧ (loadAndSetupVideos now st (.fail e)).2 = .next (VideoService.handleError e)
    ∧ (VideoService.handleError e).success = false
    ∧ (∃ m, (VideoService.handleError e).message = some m
        ∧ (VideoService.handleError e).errors = some [.vstr m]) :=
  ⟨rfl, rfl, rfl, ⟨_, rfl, rfl⟩⟩

/-! ### Helper lemmas for `jsSetOfList` -/

theorem jsSetOfList_aux_mem (l : List String) :
    ∀ (acc : List String) (c : String),
      c ∈ l.foldl (fun acc s => if s ∈ acc then acc else acc ++ [s]) acc
        ↔ c ∈ acc ∨ c ∈ l := by
  induction l with
  | nil => intro acc c; simp
  | cons s l ih =>
    intro acc c
    simp only [List.foldl_cons]
    rw [ih]
    by_cases hs : s ∈ acc
    · simp only [if_pos hs, List.mem_cons]
      constructor
      · rintro (h | h)
        · exact Or.inl h
        · exact Or.inr (Or.inr h)
      · rintro (h | h | h)
        · exact Or.inl h
        · exact Or.inl (by rw [h]; exact hs)
        · exact Or.inr h
    · simp only [if_neg hs, List.mem_append, List.mem_singleton, List.mem_cons]
      tauto

theorem jsSetOfList_aux_nodup (l : List String) :
    ∀ acc : List String, acc.Nodup →
      (l.foldl (fun acc s => if s ∈ acc then acc else acc ++ [s]) acc).Nodup := by
  induction l with
  | nil => intro acc h; simpa using h
  | cons s l ih =>
    intro acc h
    simp only [List.foldl_cons]
    apply ih
    by_cases hs : s ∈ acc
    · simpa [if_pos hs] using h
    · rw [if_neg hs, List.nodup_append]
      refine ⟨h, List.nodup_singleton s, ?_⟩
      intro a ha hb
      rw [List.mem_singleton] at hb
      subst hb
      exact hs ha

theorem jsSetOfList_nodup (l : List String) : (jsSetOfList l).Nodup :=
  jsSetOfList_aux_nodup l [] List.nodup_nil

theorem mem_jsSetOfList (l : List String) (c : String) :
    c ∈ jsSetOfList l ↔ c ∈ l := by
  rw [jsSetOfList, jsSetOfList_aux_mem]
  simp

/-- C7: `getCategories()` returns the distinct lower-cased categories of
the stored videos — duplicate-free, and containing exactly the
lower-casings of the present, nonempty category fields — and on stored
categories `["Action","action","Comedy"]` it returns exactly
`["action","comedy"]`. -/
theorem claim_C7_getCategories_distinct_lowercased (vs : List Video) :
    (getCategories vs).Nodup
    ∧ (∀ c, c ∈ getCategories vs
        ↔ ∃ v ∈ vs, ∃ s, v.category = some s ∧ s ≠ "" ∧ jsToLower s = c)
    ∧ getCategories
        [{ id := 1, title := "v1", category := some "Action" },
         { id := 2, title := "v2", category := some "action" },
         { id := 3, title := "v3", category := some "Comedy" }]
      = ["action", "comedy"] := by
  refine ⟨jsSetOfList_nodup _, fun c => ?_, by decide⟩
  rw [getCategories, mem_jsSetOfList]
  simp only [List.mem_map, List.mem_filter]
  constructor
  · rintro ⟨o, ⟨ho, hp⟩, hf⟩
    obtain ⟨v, hv, hcat⟩ := ho
    cases o with
    | none => simp at hp
    | some s =>
      simp only [decide_eq_true_eq] at hp
      exact ⟨v, hv, s, hcat, hp, hf⟩
  · rintro ⟨v, hv, s, hcat, hs, hlow⟩
    refine ⟨some s, ⟨⟨v, hv, hcat⟩, ?_⟩, hlow⟩
    simpa using hs

/-- C8: the latest-videos computation keeps exactly the videos whose
`created_at` is at or after `now - 5 days`; in particular a video created
4 days before `now` is kept, one created 6 days before `now` is dropped,
and the boundary at exactly 5 days is inclusive. -/
theorem claim_C8_latest_videos_window (now : Int) (vs : List Video) (v : Video) :
    (v ∈ calculateLatestVideos now vs
      ↔ v ∈ vs ∧ ∃ t, v.created_at = some t ∧ now - 5 * 24 * 60 * 60 * 1000 ≤ t)
    ∧ (v ∈ vs → v.created_at = some (now - 4 * 24 * 60 * 60 * 1000) →
        v ∈ calculateLatestVideos now vs)
    ∧ (v.created_at = some (now - 6 * 24 * 60 * 60 * 1000) →
        v ∉ calculateLatestVideos now vs)
    ∧ (v ∈ vs → v.created_at = some (now - 5 * 24 * 60 * 60 * 1000) →
        v ∈ calculateLatestVideos now vs) := by
  have hmem : v ∈ calculateLatestVideos now vs
      ↔ v ∈ vs ∧ ∃ t, v.created_at = some t ∧ now - 5 * 24 * 60 * 60 * 1000 ≤ t := by
    simp only [calculateLatestVideos, List.mem_filter]
    constructor
    · rintro ⟨hv, hp⟩
      refine ⟨hv, ?_⟩
      cases hca : v.created_at with
      | none => rw [hca] at hp; simp at hp
      | some t =>
        rw [hca] at hp
        simp only [decide_eq_true_eq] at hp
        exact ⟨t, rfl, hp⟩
    · rintro ⟨hv, t, ht, hle⟩
      refine ⟨hv, ?_⟩
      rw [ht]
      simpa using hle
  refine ⟨hmem, ?_, ?_, ?_⟩
  · intro hv hc
    exact hmem.mpr ⟨hv, _, hc, by omega⟩
  · intro hc hin
    obtain ⟨-, t, ht, hle⟩ := hmem.mp hin
    rw [hc] at ht
    have htt : now - 6 * 24 * 60 * 60 * 1000 = t := Option.some.inj ht
    omega
  · intro hv hc
    exact hmem.mpr ⟨hv, _, hc, by omega⟩

/-- Witness for C8 at a concrete reference time and video list: the video
created 4 days before `now = 10^9` is kept, the one created 6 days before
is dropped. -/
theorem claim_C8_witness :
    ({ id := 1, title := "a", created_at := some 654400000 } : Video)
      ∈ calculateLatestVideos 1000000000
        [{ id := 1, title := "a", created_at := some 654400000 },
         { id := 2, title := "b", created_at := some 481600000 }]
    ∧ ({ id := 2, title := "b", created_at := some 481600000 } : Video)
      ∉ calculateLatestVideos 1000000000
        [{ id := 1, title := "a", created_at := some 654400000 },
         { id := 2, title := "b", created_at := some 481600000 }] := by
  have h1 := claim_C8_latest_videos_window 1000000000
    [{ id := 1, title := "a", created_at := some 654400000 },
     { id := 2, title := "b", created_at := some 481600000 }]
    { id := 1, title := "a", created_at := some 654400000 }
  have h2 := claim_C8_latest_videos_window 1000000000
    [{ id := 1, title := "a", created_at := some 654400000 },
     { id := 2, title := "b", created_at := some 481600000 }]
    { id := 2, title := "b", created_at := some 481600000 }
  exact ⟨h1.2.1 (by decide) (by decide), h2.2.2.1 (by decide)⟩

theorem coerceStr_vstr (s : String) : (JSVal.vstr s).coerceStr = s := by
  simp [JSVal.coerceStr]

theorem intercalate_single (sep s : String) : String.intercalate sep [s] = s := rfl

/-- Evaluation of `handleErrorResponse` on a plain-object body: the
truthiness and `typeof` guards pass, so the envelope is built from the
collected field errors. -/
theorem handleErrorResponse_vobj (fields : List (String × JSVal)) (st : Int)
    (m : String) :
    (handleErrorResponse { status := st, error := .vobj fields, message := m } : ApiResponse Unit)
      = { success := false
          errors := some (collectErrorMessages (.vobj fields))
          message := some (if (collectErrorMessages (.vobj fields)).length > 0
            then String.intercalate ". "
              ((collectErrorMessages (.vobj fields)).map JSVal.coerceStr)
            else "An error occurred") } := rfl

/-- Evaluation of `handleErrorResponse` on a nonempty string body: the
string is pushed as the single error message and used as the display
message. -/
theorem handleErrorResponse_vstr (s : String) (st : Int) (m : String)
    (hs : s ≠ "") :
    (handleErrorResponse { status := st, error := .vstr s, message := m } : ApiResponse Unit)
      = { success := false, errors := some [.vstr s], message := some s } := by
  simp only [handleErrorResponse, JSVal.truthy, JSVal.typeofStr]
  simp [hs, coerceStr_vstr, intercalate_single]

theorem collect_fieldErrJS (fields : List (String × (List String ⊕ String))) :
    ∀ acc : List JSVal,
      (fields.map (fun kv => (kv.1, fieldErrJS kv.2))).foldl
          (fun acc kv => pushFieldErrors acc kv.2) acc
        = acc ++ (flattenFieldErrors fields).map JSVal.vstr := by
  induction fields with
  | nil => intro acc; simp [flattenFieldErrors]
  | cons kv rest ih =>
    intro acc
    obtain ⟨k, fv⟩ := kv
    cases fv with
    | inl ss =>
      simp only [List.map_cons, List.foldl_cons]
      rw [ih]
      simp [flattenFieldErrors, pushFieldErrors, fieldErrJS, List.append_assoc]
    | inr s =>
      simp only [List.map_cons, List.foldl_cons]
      rw [ih]
      simp [flattenFieldErrors, pushFieldErrors, fieldErrJS, List.append_assoc]

/-- C4 (amended): for a structured field-keyed body whose fields map to
string arrays or single strings, the failed envelope's `errors` list is
the flattening of all field values in key iteration order, and its
`message` is that list joined with `". "` — unless the flattening is
empty, in which case the generic fallback message is used.  A *nonempty*
plain-string body is used directly; the empty string, and every
null/undefined/boolean/number body, yields the generic fallback with an
empty `errors` list.  On the claim's example body
`{field1: ["a","b"], field2: "c"}` the errors are `["a","b","c"]` and the
message is `"a. b. c"`. -/
theorem claim_C4_error_flattening
    (fields : List (String × (List String ⊕ String))) (s : String) (st : Int)
    (_hkeys : (fields.map Prod.fst).Nodup) (b : Bool) (n : Int) :
    ((handleErrorResponse { status := st, error := objErrVal fields } : ApiResponse Unit).errors
        = some ((flattenFieldErrors fields).map JSVal.vstr)
      ∧ (handleErrorResponse { status := st, error := objErrVal fields } : ApiResponse Unit).message
        = some (if flattenFieldErrors fields = [] then "An error occurred"
                else String.intercalate ". " (flattenFieldErrors fields)))
    ∧ ((handleErrorResponse { status := st, error := .vstr s } : ApiResponse Unit).errors
        = some (if s = "" then [] else [.vstr s])
      ∧ (handleErrorResponse { status := st, error := .vstr s } : ApiResponse Unit).message
        = some (if s = "" then "An error occurred" else s))
    ∧ ((handleErrorResponse { status := st, error := .vnull } : ApiResponse Unit).message
        = some "An error occurred"
      ∧ (handleErrorResponse { status := st, error := .vundefined } : ApiResponse Unit).message
        = some "An error occurred"
      ∧ (handleErrorResponse { status := st, error := .vbool b } : ApiResponse Unit).message
        = some "An error occurred"
      ∧ (handleErrorResponse { status := st, error := .vnum n } : ApiResponse Unit).message
        = some "An error occurred"
      ∧ (handleErrorResponse { status := st, error := .vnum n } : ApiResponse Unit).errors
        = some [])
    ∧ ((handleErrorResponse { status := 400, error := objErrVal [("field1", .inl ["a", "b"]), ("field2", .inr "c")] } : ApiResponse Unit).errors
        = some [.vstr "a", .vstr "b", .vstr "c"]
      ∧ (handleErrorResponse { status := 400, error := objErrVal [("field1", .inl ["a", "b"]), ("field2", .inr "c")] } : ApiResponse Unit).message
        = some "a. b. c") := by
  have hcomp : JSVal.coerceStr ∘ JSVal.vstr = id := funext coerceStr_vstr
  have hobj : ∀ (fs : List (String × (List String ⊕ String))) (st' : Int),
      (handleErrorResponse { status := st', error := objErrVal fs } : ApiResponse Unit).errors
        = some ((flattenFieldErrors fs).map JSVal.vstr)
      ∧ (handleErrorResponse { status := st', error := objErrVal fs } : ApiResponse Unit).message
        = some (if flattenFieldErrors fs = [] then "An error occurred"
                else String.intercalate ". " (flattenFieldErrors fs)) := by
    intro fs st'
    have hc : collectErrorMessages
        (.vobj (fs.map (fun kv => (kv.1, fieldErrJS kv.2))))
        = (flattenFieldErrors fs).map JSVal.vstr := by
      have h := collect_fieldErrJS fs []
      simpa [collectErrorMessages] using h
    have hrw : (handleErrorResponse { status := st', error := objErrVal fs } : ApiResponse Unit)
        = { success := false
            errors := some ((flattenFieldErrors fs).map JSVal.vstr)
            message := some (if ((flattenFieldErrors fs).map JSVal.vstr).length > 0
              then String.intercalate ". "
                (((flattenFieldErrors fs).map JSVal.vstr).map JSVal.coerceStr)
              else "An error occurred") } := by
      rw [show objErrVal fs = .vobj (fs.map (fun kv => (kv.1, fieldErrJS kv.2))) from rfl,
        handleErrorResponse_vobj, hc]
    rw [hrw]
    refine ⟨rfl, ?_⟩
    cases hfl : flattenFieldErrors fs with
    | nil => simp
    | cons x xs => simp [List.map_map, hcomp, coerceStr_vstr]
  refine ⟨hobj fields st, ⟨?_, ?_⟩, ⟨rfl, rfl, ?_, ?_, ?_⟩, ?_⟩
  · by_cases hs : s = ""
    · subst hs; rfl
    · rw [handleErrorResponse_vstr s st "" hs, if_neg hs]
  · by_cases hs : s = ""
    · subst hs; rfl
    · rw [handleErrorResponse_vstr s st "" hs, if_neg hs]
  · cases b <;> rfl
  · by_cases hn : n = 0
    · subst hn; rfl
    · simp only [handleErrorResponse, JSVal.truthy, JSVal.typeofStr]
      simp [hn]
  · by_cases hn : n = 0
    · subst hn; rfl
    · simp only [handleErrorResponse, JSVal.truthy, JSVal.typeofStr]
      simp [hn]
  · exact hobj [("field1", Sum.inl ["a", "b"]), ("field2", Sum.inr "c")] 400

/-- Counterexample to C4 as stated: the empty string is a plain-string
error body, but it is not used directly — the handler produces the
generic fallback message and an empty errors list instead. -/
theorem claim_C4_counterexample :
    ((handleErrorResponse { status := 400, error := .vstr "" } : ApiResponse Unit).message
      = some "An error occurred")
    ∧ ((handleErrorResponse { status := 400, error := .vstr "" } : ApiResponse Unit).errors
      = some [])
    ∧ ¬((handleErrorResponse { status := 400, error := .vstr "" } : ApiResponse Unit).message
      = some "") := by
  have hm : (handleErrorResponse { status := 400, error := .vstr "" } : ApiResponse Unit).message
      = some "An error occurred" := rfl
  refine ⟨hm, rfl, ?_⟩
  rw [hm]
  intro h
  exact absurd (Option.some.inj h) (by decide)

/-- Witness for C4 (amended) at concrete inputs: the example body from
the claim, and a nonempty plain-string body. -/
theorem claim_C4_witness :
    ((handleErrorResponse { status := 422, error := objErrVal [("field1", .inl ["a", "b"]), ("field2", .inr "c")] } : ApiResponse Unit).errors
      = some [.vstr "a", .vstr "b", .vstr "c"])
    ∧ ((handleErrorResponse { status := 422, error := .vstr "boom" } : ApiResponse Unit).message
      = some "boom") := by
  have h := claim_C4_error_flattening
    [("field1", Sum.inl ["a", "b"]), ("field2", Sum.inr "c")] "boom" 422
    (by decide) true 0
  exact ⟨h.1.1, h.2.1.2⟩

/-! ### C5: refresh coalescing in the token-variant interceptor -/

/-- While a refresh is in flight, any number of further 401 observations
only join the waiting list: no other field of the interceptor state
changes. -/
theorem runTokenEvents_observe401_refreshing (reqs : List Nat) :
    ∀ s : TokenState, s.isRefreshing = true →
      runTokenEvents s (reqs.map TokenEvent.observe401)
        = { s with waiting := s.waiting ++ reqs } := by
  induction reqs with
  | nil => intro s h; simp [runTokenEvents]
  | cons r rest ih =>
    intro s h
    simp only [List.map_cons, runTokenEvents, List.foldl_cons]
    have hstep : tokenStep s (.observe401 r) = { s with waiting := s.waiting ++ [r] } := by
      simp [tokenStep, h]
    rw [hstep]
    have hrest := ih { s with waiting := s.waiting ++ [r] } h
    simp only [runTokenEvents] at hrest
    rw [hrest]
    simp

/-- C5: with a token refresh already in flight, every further 401 only
waits (no additional refresh call, `refreshCalls` unchanged); a 401 seen
with no refresh in flight makes exactly one refresh call; when the single
refresh succeeds, the new access token is stored and every waiting
request plus the initiator is retried bearing that token; when it fails,
the session is invalidated (token storage cleared, user cleared,
authenticated false) and the user is redirected to login. -/
theorem claim_C5_refresh_coalescing (s0 : TokenState) (reqs : List Nat)
    (tok : String) (r r0 : Nat)
    (href : s0.isRefreshing = true) (hinit : s0.pendingInitiator = some r0) :
    ((runTokenEvents s0 (reqs.map TokenEvent.observe401)).refreshCalls = s0.refreshCalls)
    ∧ ((runTokenEvents s0 (reqs.map TokenEvent.observe401)).waiting = s0.waiting ++ reqs)
    ∧ (∀ t : TokenState, t.isRefreshing = false →
        (tokenStep t (.observe401 r)).refreshCalls = t.refreshCalls + 1
        ∧ (tokenStep t (.observe401 r)).isRefreshing = true
        ∧ (tokenStep t (.observe401 r)).pendingInitiator = some r)
    ∧ ((tokenStep (runTokenEvents s0 (reqs.map TokenEvent.observe401)) (.refreshSuccess tok)).retried
        = s0.retried ++ (s0.waiting ++ reqs).map (fun q => (q, some tok)) ++ [(r0, some tok)])
    ∧ ((tokenStep (runTokenEvents s0 (reqs.map TokenEvent.observe401)) (.refreshSuccess tok)).accessTokenLS
        = some tok)
    ∧ ((tokenStep (runTokenEvents s0 (reqs.map TokenEvent.observe401)) (.refreshSuccess tok)).refreshCalls
        = s0.refreshCalls)
    ∧ ((tokenStep (runTokenEvents s0 (reqs.map TokenEvent.observe401)) TokenEvent.refreshFailure).isAuthenticated = false
      ∧ (tokenStep (runTokenEvents s0 (reqs.map TokenEvent.observe401)) TokenEvent.refreshFailure).accessTokenLS = none
      ∧ (tokenStep (runTokenEvents s0 (reqs.map TokenEvent.observe401)) TokenEvent.refreshFailure).refreshTokenLS = none
      ∧ (tokenStep (runTokenEvents s0 (reqs.map TokenEvent.observe401)) TokenEvent.refreshFailure).currentUser = none
      ∧ (tokenStep (runTokenEvents s0 (reqs.map TokenEvent.observe401)) TokenEvent.refreshFailure).navigatedToLogin = true) := by
  rw [runTokenEvents_observe401_refreshing reqs s0 href]
  refine ⟨rfl, rfl, ?_, ?_, ?_, ?_, ?_⟩
  · intro t ht
    simp [tokenStep, ht]
  · simp [tokenStep, hinit]
  · simp [tokenStep, hinit]
  · simp [tokenStep, hinit]
  · simp [tokenStep, hinit]

/-- Witness for C5: from the fresh interceptor state, request 0 observes
a 401 and triggers the one refresh call; requests 1, 2, 3 observe 401s
while it is in flight; after the refresh succeeds with token `"tok2"`,
exactly one refresh call has been made and all four requests have been
retried bearing `"tok2"`. -/
theorem claim_C5_witness :
    ((tokenStep (runTokenEvents (tokenStep {} (.observe401 0))
        ([1, 2, 3].map TokenEvent.observe401)) (.refreshSuccess "tok2")).retried
      = [(1, some "tok2"), (2, some "tok2"), (3, some "tok2"), (0, some "tok2")])
    ∧ ((tokenStep (runTokenEvents (tokenStep {} (.observe401 0))
        ([1, 2, 3].map TokenEvent.observe401)) (.refreshSuccess "tok2")).refreshCalls = 1) := by
  have h := claim_C5_refresh_coalescing (tokenStep {} (.observe401 0))
    [1, 2, 3] "tok2" 7 0 rfl rfl
  exact ⟨h.2.2.2.1, h.2.2.2.2.2.1⟩

/-! ### C6: cookie-variant interceptor -/

/-- C6: the cookie-variant interceptor forwards every request with
`withCredentials: true`; a 401 `HttpErrorResponse` leads to an immediate
logout (session cleared) and a redirect to the login screen, surfacing a
session-expired error (no retry, no refresh); an `HttpErrorResponse`
with any other status, and any non-HTTP error, passes through to the
caller unmodified with the session untouched; response events pass
through. -/
theorem claim_C6_cookie_interceptor (s : AuthState) (req : HttpRequest)
    (d : NextResult) (status : Int) (body : JSVal) (m : String) (t : Nat) :
    ((authInterceptorCookie s req d).sent = { req with withCredentials := true })
    ∧ (authInterceptorCookie s req (.err (.httpError 401 body))
        = { sent := { req with withCredentials := true }, state := logout s,
            navigatedToLogin := true, outcome := .sessionExpired })
    ∧ (status ≠ 401 →
        authInterceptorCookie s req (.err (.httpError status body))
          = { sent := { req with withCredentials := true }, state := s,
              navigatedToLogin := false,
              outcome := .errorOut (.httpError status body) })
    ∧ (authInterceptorCookie s req (.err (.jsError m))
        = { sent := { req with withCredentials := true }, state := s,
            navigatedToLogin := false, outcome := .errorOut (.jsError m) })
    ∧ (authInterceptorCookie s req (.event t)
        = { sent := { req with withCredentials := true }, state := s,
            navigatedToLogin := false, outcome := .event t }) := by
  refine ⟨?_, rfl, ?_, rfl, rfl⟩
  · cases d with
    | event t => rfl
    | err e =>
      cases e with
      | httpError st2 b =>
        simp only [authInterceptorCookie]
        split <;> rfl
      | jsError m2 => rfl
  · intro h
    simp [authInterceptorCookie, h]

/-- Witness for C6: a 404 error passes through unmodified with the
session untouched, while a 401 clears a previously authenticated
session. -/
theorem claim_C6_witness :
    (authInterceptorCookie initialAuthState { url := "video/" }
        (.err (.httpError 404 .vnull))
      = { sent := { url := "video/", withCredentials := true },
          state := initialAuthState, navigatedToLogin := false,
          outcome := .errorOut (.httpError 404 .vnull) })
    ∧ ((authInterceptorCookie
        { currentUser := some { id := 1, email := "a@b.c" }, isAuthenticated := true }
        { url := "video/" } (.err (.httpError 401 .vnull))).state.isAuthenticated
      = false) := by
  have h4 := claim_C6_cookie_interceptor initialAuthState { url := "video/" }
    (.err (.httpError 404 .vnull)) 404 .vnull "x" 0
  have h1 := claim_C6_cookie_interceptor
    { currentUser := some { id := 1, email := "a@b.c" }, isAuthenticated := true }
    { url := "video/" } (.err (.httpError 401 .vnull)) 404 .vnull "x" 0
  refine ⟨h4.2.2.1 (by decide), ?_⟩
  rw [h1.2.1]
  rfl

end Videoflix
